import Mathlib

/-!
Verification of the ChildFirst incident capture & documentation engine.

The definitions below are a shallow embedding of the TypeScript source:
* `VoiceRecording` component (session state, `startRecording`, `saveIncident`),
* `IncidentTimeline` component (`filterIncidents`, `exportToCSV`, `exportToPDF`,
  `deleteIncident`),
* `Settings` component (`importData`),
* `LegalTools` component (`generateCourtReport`).

JavaScript numbers that only ever hold integers (severity, epoch milliseconds)
are modelled as `Int`/`Nat`.  ISO-8601 timestamps are modelled by a civil
`DateTime` record together with a mixed-radix linearisation `DateTime.getTime`
that is order-isomorphic to `new Date(iso).getTime()` on valid UTC datetimes.
Falsy string checks (`if (s)` in JS) become `s ≠ ""` checks; optional JSON
fields become `Option`.  String primitives of the source (`trim`,
`toLowerCase`, `includes`, `split`, `Number`, `padStart`) are modelled by
structurally recursive functions on the character list so that every
definition evaluates by kernel reduction.
-/

namespace ChildFirst

/-! ### JavaScript string primitives -/

/-- Model of `String.prototype.trim()`: strip leading and trailing whitespace
(the source only ever trims ASCII text). -/
def jsTrim (s : String) : String :=
  ⟨((s.data.dropWhile Char.isWhitespace).reverse.dropWhile Char.isWhitespace).reverse⟩

/-- Model of `String.prototype.toLowerCase()` (ASCII case folding; the stored
categories and search terms in the source are ASCII). -/
def jsToLower (s : String) : String := ⟨s.data.map Char.toLower⟩

/-- Tests whether `needle` occurs at the head of `hay`. -/
def listStarts : List Char → List Char → Bool
  | [], _ => true
  | _ :: _, [] => false
  | a :: as, b :: bs => a == b && listStarts as bs

/-- Tests whether `needle` occurs contiguously somewhere in `hay`. -/
def listContainsSeq (needle : List Char) : List Char → Bool
  | [] => needle.isEmpty
  | c :: t => listStarts needle (c :: t) || listContainsSeq needle t

/-- Model of `hay.includes(needle)` (substring test; the empty needle matches
every string, as in JS). -/
def jsIncludes (hay needle : String) : Bool := listContainsSeq needle.data hay.data

/-- Model of `s.split('-')` on the character list. -/
def splitDash : List Char → List (List Char)
  | [] => [[]]
  | c :: t =>
    if c = '-' then [] :: splitDash t
    else
      match splitDash t with
      | h :: r => (c :: h) :: r
      | [] => [[c]]

/-- Model of `Number(s)` restricted to the unsigned decimal numerals that the
severity-band strings of the source contain; `none` models `NaN`. -/
def parseNat (s : String) : Option Nat :=
  if s.data.isEmpty ∨ ¬ s.data.all Char.isDigit then none
  else some (s.data.foldl (fun a c => a * 10 + (c.toNat - 48)) 0)

/-- Two-digit zero padding, as produced by the `MM`, `dd`, `HH`, `mm`, `ss`
tokens of `date-fns format`. -/
def pad2 (n : Nat) : String := if n < 10 then "0" ++ toString n else toString n

/-- Four-digit zero padding, as produced by the `yyyy` token of
`date-fns format`. -/
def pad4 (n : Nat) : String :=
  if n < 10 then "000" ++ toString n
  else if n < 100 then "00" ++ toString n
  else if n < 1000 then "0" ++ toString n
  else toString n

/-! ### Data model -/

/-- A civil UTC datetime, abstracting the ISO-8601 timestamp strings of the
source.  Chronological order of valid timestamps is the lexicographic order of
the fields. -/
structure DateTime where
  year : Nat
  month : Nat
  day : Nat
  hour : Nat
  minute : Nat
  second : Nat
deriving DecidableEq, Repr

/-- Mixed-radix linearisation of a `DateTime`.  For valid datetimes (month ≤ 12,
day ≤ 31, hour < 24, minute < 60, second < 60) it is strictly monotone in the
lexicographic field order, so it is order-isomorphic to the epoch-millisecond
value `new Date(ts).getTime()` that the source compares. -/
def DateTime.getTime (d : DateTime) : Nat :=
  ((((d.year * 13 + d.month) * 32 + d.day) * 24 + d.hour) * 60 + d.minute) * 60 + d.second

/-- The timestamp rendering `format(parseISO(ts), 'yyyy-MM-dd HH:mm:ss')` used
by the tabular exporter. -/
def formatDateTime (d : DateTime) : String :=
  pad4 d.year ++ "-" ++ pad2 d.month ++ "-" ++ pad2 d.day ++ " " ++
    pad2 d.hour ++ ":" ++ pad2 d.minute ++ ":" ++ pad2 d.second

/-- The `Incident` record of the source (`IncidentTimeline` / `LegalTools`
interface `Incident`).  `location` is a plain string as produced by
`VoiceRecording` (`""` plays the role of JS falsy / absent). -/
structure Incident where
  id : String
  timestamp : DateTime
  category : String
  severity : Int
  location : String
  transcript : String
  peopleInvolved : List String
deriving DecidableEq, Repr

/-! ### VoiceRecording: session state and `saveIncident` -/

/-- The `VoiceRecordingState` of the source: the ephemeral session that
`saveIncident` reads.  `timestamp = none` models the initial `''` value
(falsy in `state.timestamp || new Date().toISOString()`). -/
structure SessionState where
  isRecording : Bool
  isPaused : Bool
  transcript : String
  category : String
  severity : Int
  peopleInvolved : List String
  location : String
  timestamp : Option DateTime
deriving DecidableEq, Repr

/-- Result of `saveIncident`: either the validation toast
("Missing information") with nothing persisted, or the saved incident. -/
inductive SaveOutcome where
  | validationError
  | saved (incident : Incident)
deriving DecidableEq, Repr

/-- Shallow embedding of `saveIncident` (VoiceRecording component).

Source:
```
if (!state.transcript.trim() || !state.category) { …toast…; return; }
const incident = {
  id: Date.now().toString(),
  timestamp: state.timestamp || new Date().toISOString(),
  category: state.category, severity: state.severity,
  location: state.location, transcript: state.transcript.trim(),
  peopleInvolved: state.peopleInvolved };
existingIncidents.push(incident);
```
`nowMs` is `Date.now()` (also the generated id), `now` is the civil value of
`new Date()`.  Returns the outcome together with the store after the call. -/
def saveIncident (nowMs : Nat) (now : DateTime) (state : SessionState)
    (store : List Incident) : SaveOutcome × List Incident :=
  if jsTrim state.transcript = "" ∨ state.category = "" then
    (SaveOutcome.validationError, store)
  else
    let incident : Incident :=
      { id := toString nowMs
        timestamp := state.timestamp.getD now
        category := state.category
        severity := state.severity
        location := state.location
        transcript := jsTrim state.transcript
        peopleInvolved := state.peopleInvolved }
    (SaveOutcome.saved incident, store ++ [incident])

/-- Severity values reachable at the save interface: the session's severity is
initialised to `3` and only ever overwritten with a slider value, where the
slider is declared with `min={1} max={5} step={1}`. -/
inductive severityReachable : Int → Prop
  | initial : severityReachable 3
  | slider (v : Int) (h1 : 1 ≤ v) (h2 : v ≤ 5) : severityReachable v

/-! ### VoiceRecording: recording controller -/

/-- The capture-resource view of the `VoiceRecording` component:
`isRecording`/`isPaused` are the React state flags, `activeStreams` counts
`getUserMedia` streams that have been acquired and not stopped,
`recognitionActive` is the `isListening` flag of the single shared
`SpeechRecognition` instance, and `activeTimers` counts `setInterval` timers
that have not been cleared. -/
structure ControllerState where
  isRecording : Bool
  isPaused : Bool
  activeStreams : Nat
  recognitionActive : Bool
  activeTimers : Nat
  recordingTime : Nat
  location : String
  timestamp : Option DateTime
deriving DecidableEq, Repr

/-- Outcome of `startRecording`: either the success toast ("Recording
started") or the caught failure toast ("Recording failed"). -/
inductive StartOutcome where
  | started
  | failed
deriving DecidableEq, Repr

/-- The initial controller state of the component. -/
def idleController : ControllerState :=
  { isRecording := false, isPaused := false, activeStreams := 0
    recognitionActive := false, activeTimers := 0, recordingTime := 0
    location := "", timestamp := none }

/-- Shallow embedding of `startRecording` (VoiceRecording component).  The
whole body is a single `try { … } catch { toast("Recording failed") }`; there
is no state guard.  In source order it (1) awaits `getUserMedia` and wraps the
stream in a fresh `MediaRecorder` (replacing the ref, leaving any previous
stream running), (2) resolves the location and timestamp, (3) sets
`isRecording`, (4) calls `recognition.start()` — which throws
`InvalidStateError` when the shared recognizer is already running, jumping to
the catch — and (5) resets and starts the elapsed-time interval (replacing the
timer ref without clearing a previous interval).  `audioOk` is whether
`getUserMedia` succeeds. -/
def startRecording (audioOk : Bool) (loc : String) (now : DateTime)
    (s : ControllerState) : ControllerState × StartOutcome :=
  if audioOk = false then
    (s, StartOutcome.failed)
  else
    let s1 := { s with activeStreams := s.activeStreams + 1 }
    let s2 := { s1 with isRecording := true, isPaused := false
                        location := loc, timestamp := some now }
    if s2.recognitionActive then
      (s2, StartOutcome.failed)
    else
      ({ s2 with recognitionActive := true, recordingTime := 0
                 activeTimers := s2.activeTimers + 1 },
       StartOutcome.started)

/-! ### IncidentTimeline: filtering, sorting, deletion -/

/-- The `sortOrder` select value of the timeline. -/
inductive SortOrder where
  | newest
  | oldest
deriving DecidableEq, Repr

/-- The comparator of the source's `filtered.sort((a, b) => …)` turned into a
boolean "may come before" relation: `newest` keeps `a` before `b` when
`dateB - dateA ≤ 0` is allowed, i.e. descending timestamps. -/
def sortLe (ord : SortOrder) (a b : Incident) : Bool :=
  match ord with
  | SortOrder.newest => decide (b.timestamp.getTime ≤ a.timestamp.getTime)
  | SortOrder.oldest => decide (a.timestamp.getTime ≤ b.timestamp.getTime)

/-- The search predicate of the source:
`transcript.toLowerCase().includes(term.toLowerCase()) ||
 category.toLowerCase().includes(term.toLowerCase())`. -/
def searchHit (searchTerm : String) (i : Incident) : Bool :=
  jsIncludes (jsToLower i.transcript) (jsToLower searchTerm) ||
    jsIncludes (jsToLower i.category) (jsToLower searchTerm)

/-- The two band endpoints `severityRange[0]`/`severityRange[1]` obtained from
`severityFilter.split('-').map(Number)`; `none` models an undefined index or a
`NaN` conversion, either of which makes the JS comparison false. -/
def bandBounds (severityFilter : String) : Option Nat × Option Nat :=
  let r := (splitDash severityFilter.data).map (fun l => parseNat ⟨l⟩)
  ((r.getD 0 none), (r.getD 1 none))

/-- The severity test of the source:
`incident.severity >= severityRange[0] && incident.severity <= severityRange[1]`. -/
def severityHit (severityFilter : String) (i : Incident) : Bool :=
  match bandBounds severityFilter with
  | (some lo, some hi) => decide ((lo : Int) ≤ i.severity) && decide (i.severity ≤ (hi : Int))
  | (some lo, none) => decide ((lo : Int) ≤ i.severity) && false
  | (none, _) => false

/-- Shallow embedding of `filterIncidents` (IncidentTimeline component): the
search filter (skipped for the empty, falsy, term), the category filter
(skipped for `"all"`), the severity filter (skipped for `"all"`), then the
stable sort by timestamp.  `Array.prototype.sort` is stable, so it is modelled
by `List.mergeSort` with the comparator's "may come before" relation. -/
def filterIncidents (incidents : List Incident)
    (searchTerm categoryFilter severityFilter : String)
    (sortOrder : SortOrder) : List Incident :=
  let afterSearch :=
    if searchTerm = "" then incidents
    else incidents.filter (fun i => searchHit searchTerm i)
  let afterCategory :=
    if categoryFilter = "all" then afterSearch
    else afterSearch.filter (fun i => i.category == categoryFilter)
  let afterSeverity :=
    if severityFilter = "all" then afterCategory
    else afterCategory.filter (fun i => severityHit severityFilter i)
  afterSeverity.mergeSort (sortLe sortOrder)

/-- Model of `deleteIncident` of the timeline:
`incidents.filter(incident => incident.id !== id)`. -/
def deleteIncident (id : String) (incidents : List Incident) : List Incident :=
  incidents.filter (fun i => i.id != id)

/-- The severity band denoted by one of the timeline's severity-filter values
(`"all"`, `"1-2"`, `"3-3"`, `"4-5"`): `none` for `"all"`, otherwise the
inclusive integer band. -/
def uiBand (severityFilter : String) : Option (Nat × Nat) :=
  if severityFilter = "all" then none
  else
    match bandBounds severityFilter with
    | (some lo, some hi) => some (lo, hi)
    | _ => none

/-- The specification's view predicate, written from the spec's words: the
three filters are conjunctive — a case-insensitive substring match of the
search term against transcript OR category (empty term matches all), category
equality unless the filter is `"all"`, and severity inside the inclusive band
unless the band is `"all"` (`none`). -/
def specMatches (searchTerm categoryFilter : String) (band : Option (Nat × Nat))
    (i : Incident) : Bool :=
  (searchTerm == "" || searchHit searchTerm i) &&
    (categoryFilter == "all" || i.category == categoryFilter) &&
    (match band with
      | none => true
      | some (lo, hi) => decide ((lo : Int) ≤ i.severity) && decide (i.severity ≤ (hi : Int)))

/-! ### IncidentTimeline: tabular (CSV) export -/

/-- Model of `transcript.replace(/"/g, '""')`: double every embedded double quote. -/
def escapeQuotes (s : String) : String :=
  ⟨s.data.flatMap (fun c => if c = '"' then ['"', '"'] else [c])⟩

/-- The header row of `exportToCSV`. -/
def csvHeaders : List String :=
  ["Date", "Category", "Severity", "Location", "People Involved", "Transcript"]

/-- One data row of `exportToCSV`:
```
[format(parseISO(incident.timestamp), 'yyyy-MM-dd HH:mm:ss'),
 incident.category, incident.severity.toString(), incident.location || '',
 incident.peopleInvolved.join('; '),
 `"${incident.transcript.replace(/"/g, '""')}"`]
```
(`location || ''` is the location string itself, since `""` is its own
fallback). -/
def csvRow (i : Incident) : List String :=
  [formatDateTime i.timestamp, i.category, toString i.severity, i.location,
    String.intercalate "; " i.peopleInvolved,
    "\"" ++ escapeQuotes i.transcript ++ "\""]

/-- Shallow embedding of `exportToCSV` (IncidentTimeline component):
`[headers, ...csvData].map(row => row.join(',')).join('\n')`. -/
def exportToCSV (incidents : List Incident) : String :=
  String.intercalate "\n" ((csvHeaders :: incidents.map csvRow).map (String.intercalate ","))

/-- The claim's quoting criterion: the transcript contains a comma or a double
quote. -/
def csvNeedsQuoting (s : String) : Bool := s.data.any (fun c => c = ',' || c = '"')

/-! ### Report documents (timeline PDF and court report) -/

/-- The general timeline paginated document (`exportToPDF`): a count line
(`Total Incidents: …`) followed by one rendered entry per incident of the
filtered view, in order. -/
structure TimelineReport where
  totalIncidents : Nat
  entries : List Incident
deriving DecidableEq, Repr

/-- Shallow embedding of `exportToPDF` (IncidentTimeline component): no empty
guard; `filteredIncidents.forEach` renders every incident. -/
def exportToPDF (filteredIncidents : List Incident) : TimelineReport :=
  { totalIncidents := filteredIncidents.length, entries := filteredIncidents }

/-- First-encounter-order deduplication of keys, modelling the insertion order
of a JS object's string keys (`Object.entries(categoryCount)`; the category
labels of the source are non-numeric strings, which JS keeps in insertion
order). -/
def dedupKeys (seen : List String) : List String → List String
  | [] => []
  | c :: t => if seen.contains c then dedupKeys seen t else c :: dedupKeys (c :: seen) t

/-- The `categoryCount` object of `generateCourtReport`: each distinct category in
first-encounter order, paired with its number of occurrences. -/
def categoryCounts (incidents : List Incident) : List (String × Nat) :=
  (dedupKeys [] (incidents.map Incident.category)).map
    (fun c => (c, incidents.countP (fun i => i.category == c)))

/-- Model of `Object.entries(categoryCount).sort(([,a],[,b]) => b - a)[0]`: stable
descending sort by count, then the first entry ( `none` iff there are no
incidents). -/
def mostCommonCategory (incidents : List Incident) : Option (String × Nat) :=
  ((categoryCounts incidents).mergeSort (fun x y => decide (y.2 ≤ x.2))).head?

/-- The legal-report paginated document (`generateCourtReport`): summary block
(total, severity-band counts, most frequent category) and the detailed
incident entries. -/
structure CourtReport where
  totalIncidents : Nat
  lowCount : Nat
  mediumCount : Nat
  highCount : Nat
  mostCommon : Option (String × Nat)
  entries : List Incident
deriving DecidableEq, Repr

/-- Shallow embedding of `generateCourtReport` (LegalTools component).  When
the store is empty the function returns early with the destructive toast
"No incidents found" and generates no document (`none`).  Otherwise the
severity breakdown uses `severity <= 2 ? 'Low' : severity <= 3 ? 'Medium'
: 'High'` and the detailed section renders `incidents.slice(0, 10)`. -/
def generateCourtReport (incidents : List Incident) : Option CourtReport :=
  if incidents.length = 0 then none
  else
    some
      { totalIncidents := incidents.length
        lowCount := incidents.countP (fun i => decide (i.severity ≤ 2))
        mediumCount := incidents.countP (fun i => !decide (i.severity ≤ 2) && decide (i.severity ≤ 3))
        highCount := incidents.countP (fun i => !decide (i.severity ≤ 3))
        mostCommon := mostCommonCategory incidents
        entries := incidents.take 10 }

/-! ### Settings: backup import -/

/-- The persisted state touched by import: the `childfirst_incidents` and
`childfirst_settings` localStorage entries.  Settings are opaque to the core
and modelled by their serialized form; `none` means the key is absent. -/
structure StorageState where
  incidents : List Incident
  settings : Option String
deriving DecidableEq, Repr

/-- A parsed backup document: the `incidents` and `settings` fields may each
be present or absent (`version` and `exportDate` are ignored by the import
path of the source). -/
structure BackupDoc where
  incidents : Option (List Incident)
  settings : Option String
deriving DecidableEq, Repr

/-- Outcome of `importData`: the success toast (`Imported n incidents.`) or
the catch branch for an unparsable file ("Invalid backup file format."). -/
inductive ImportOutcome where
  | success (importedCount : Nat)
  | invalidFormat
deriving DecidableEq, Repr

/-- Shallow embedding of `importData` (Settings component).  The input is the
result of `JSON.parse` on the selected file (`Except.error` = the parse
threw).  Source:
```
if (importData.incidents) { localStorage.setItem('childfirst_incidents', …) }
if (importData.settings) { localStorage.setItem('childfirst_settings', …) }
toast(`Imported ${importData.incidents?.length || 0} incidents.`)
```
Each field is applied independently when present; there is no validation and
no abort besides the JSON parse failure. -/
def importData (input : Except Unit BackupDoc) (st : StorageState) :
    StorageState × ImportOutcome :=
  match input with
  | Except.error _ => (st, ImportOutcome.invalidFormat)
  | Except.ok doc =>
    let st1 :=
      match doc.incidents with
      | some l => { st with incidents := l }
      | none => st
    let st2 :=
      match doc.settings with
      | some s => { st1 with settings := some s }
      | none => st1
    (st2, ImportOutcome.success ((doc.incidents.map List.length).getD 0))

/-! ### Concrete fixtures (scenario records of the specification) -/

/-- Scenario A/B, first record. -/
def iA1 : Incident :=
  { id := "1", timestamp := ⟨2024, 1, 1, 10, 0, 0⟩, category := "Meltdown"
    severity := 2, location := "", transcript := "t1", peopleInvolved := [] }

/-- Scenario A/B, second record. -/
def iA2 : Incident :=
  { id := "2", timestamp := ⟨2024, 1, 2, 10, 0, 0⟩, category := "Meltdown"
    severity := 5, location := "", transcript := "t2", peopleInvolved := ["Child"] }

/-- A fixed capture instant used by the witnesses. -/
def dtW : DateTime := ⟨2024, 3, 15, 9, 30, 0⟩

/-- Scenario D session: whitespace-only transcript, category selected. -/
def sessD : SessionState :=
  { isRecording := false, isPaused := false, transcript := "  "
    category := "Meltdown", severity := 3, peopleInvolved := []
    location := "", timestamp := some dtW }

/-- A valid session whose transcript carries surrounding whitespace. -/
def sessW : SessionState :=
  { isRecording := false, isPaused := false, transcript := " note "
    category := "Meltdown", severity := 4, peopleInvolved := ["Child"]
    location := "12.000000, 34.000000", timestamp := some dtW }

/-- A session carrying an out-of-range severity. -/
def sess8 : SessionState :=
  { isRecording := false, isPaused := false, transcript := "t"
    category := "Meltdown", severity := 7, peopleInvolved := []
    location := "", timestamp := some dtW }

/-- A valid session saved at the same millisecond as an existing id. -/
def sess9 : SessionState :=
  { isRecording := false, isPaused := false, transcript := "t2"
    category := "Anxiety Episode", severity := 3, peopleInvolved := []
    location := "", timestamp := some dtW }

/-- A stored incident whose id is the millisecond string "1000". -/
def incDup : Incident :=
  { id := "1000", timestamp := ⟨2024, 1, 1, 10, 0, 0⟩, category := "Meltdown"
    severity := 2, location := "", transcript := "t1", peopleInvolved := [] }

/-! ### Helper lemmas -/

/-- Characterisation of a successful `saveIncident` call. -/
theorem saveIncident_success_eq
    (nowMs : Nat) (now : DateTime) (state : SessionState) (store : List Incident)
    (h1 : ¬ jsTrim state.transcript = "") (h2 : ¬ state.category = "") :
    saveIncident nowMs now state store =
      (SaveOutcome.saved
        { id := toString nowMs, timestamp := state.timestamp.getD now
          category := state.category, severity := state.severity
          location := state.location, transcript := jsTrim state.transcript
          peopleInvolved := state.peopleInvolved },
       store ++
        [{ id := toString nowMs, timestamp := state.timestamp.getD now
           category := state.category, severity := state.severity
           location := state.location, transcript := jsTrim state.transcript
           peopleInvolved := state.peopleInvolved }]) := by
  unfold saveIncident
  rw [if_neg (not_or.mpr ⟨h1, h2⟩)]

/-! ### C1 -/

/-- C1: for every session state and store contents, `saveIncident` with a
transcript that trims to empty or with an empty category fails with the
validation error, appends nothing, and leaves the store (hence its size)
unchanged. -/
theorem saveIncident_rejects_invalid_input
    (nowMs : Nat) (now : DateTime) (state : SessionState) (store : List Incident)
    (h : jsTrim state.transcript = "" ∨ state.category = "") :
    saveIncident nowMs now state store = (SaveOutcome.validationError, store) ∧
      (saveIncident nowMs now state store).2.length = store.length := by
  unfold saveIncident
  rw [if_pos h]
  exact ⟨rfl, rfl⟩

/-- C1 witness: scenario D — transcript `"  "`, category `"Meltdown"`, a
two-incident store; the call is rejected and the store size stays 2. -/
theorem saveIncident_rejects_invalid_input_witness :
    (jsTrim sessD.transcript = "" ∨ sessD.category = "") ∧
      saveIncident 99 dtW sessD [iA1, iA2] = (SaveOutcome.validationError, [iA1, iA2]) ∧
      (saveIncident 99 dtW sessD [iA1, iA2]).2.length = 2 := by
  refine ⟨Or.inl (by decide), ?_, ?_⟩
  · exact (saveIncident_rejects_invalid_input 99 dtW sessD [iA1, iA2] (Or.inl (by decide))).1
  · exact ((saveIncident_rejects_invalid_input 99 dtW sessD [iA1, iA2]
      (Or.inl (by decide))).2).trans (by decide)

/-! ### C10 -/

/-- C10: every incident that `saveIncident` persists stores the
whitespace-trimmed transcript, while category, severity, location and
peopleInvolved are stored verbatim from the session state (and the record is
appended to the store). -/
theorem saveIncident_persists_trimmed_transcript
    (nowMs : Nat) (now : DateTime) (state : SessionState) (store : List Incident)
    (h1 : jsTrim state.transcript ≠ "") (h2 : state.category ≠ "") :
    (saveIncident nowMs now state store).2 =
      store ++
        [{ id := toString nowMs, timestamp := state.timestamp.getD now
           category := state.category, severity := state.severity
           location := state.location, transcript := jsTrim state.transcript
           peopleInvolved := state.peopleInvolved }] := by
  rw [saveIncident_success_eq nowMs now state store h1 h2]

/-- C10 witness: a session with transcript `" note "` persists the record with
transcript `"note"` and the other fields verbatim. -/
theorem saveIncident_persists_trimmed_transcript_witness :
    jsTrim sessW.transcript ≠ "" ∧ sessW.category ≠ "" ∧
      (saveIncident 7 dtW sessW []).2 =
        [{ id := "7", timestamp := dtW, category := "Meltdown", severity := 4
           location := "12.000000, 34.000000", transcript := "note"
           peopleInvolved := ["Child"] }] := by
  refine ⟨by decide, by decide, ?_⟩
  have h := saveIncident_persists_trimmed_transcript 7 dtW sessW [] (by decide) (by decide)
  rw [h]
  decide

/-! ### C8 -/

/-- C8 counterexample: `saveIncident` called with a session whose severity is
7 — outside `[1,5]` — succeeds and persists the record, instead of rejecting
it: severity is never validated. -/
theorem saveIncident_out_of_range_severity_cex :
    ¬ (1 ≤ (7 : Int) ∧ (7 : Int) ≤ 5) ∧
      (saveIncident 1000 dtW sess8 []).1 =
        SaveOutcome.saved
          { id := "1000", timestamp := dtW, category := "Meltdown", severity := 7
            location := "", transcript := "t", peopleInvolved := [] } ∧
      (saveIncident 1000 dtW sess8 []).2.length = 1 := by
  decide

/-- C8 (amended): `saveIncident` performs no severity-range check — it
persists whatever severity the session carries — and every severity reachable
at the save interface (the initial value 3 or a slider value) lies in `[1,5]`,
so all interface-reachable severities are accepted. -/
theorem saveIncident_no_severity_check :
    (∀ (nowMs : Nat) (now : DateTime) (state : SessionState) (store : List Incident),
        jsTrim state.transcript ≠ "" → state.category ≠ "" →
        (saveIncident nowMs now state store).2.map Incident.severity =
          store.map Incident.severity ++ [state.severity]) ∧
    (∀ v : Int, severityReachable v → 1 ≤ v ∧ v ≤ 5) := by
  constructor
  · intro nowMs now state store h1 h2
    rw [saveIncident_success_eq nowMs now state store h1 h2]
    simp
  · intro v hv
    cases hv with
    | initial => exact ⟨by norm_num, by norm_num⟩
    | slider v h1 h2 => exact ⟨h1, h2⟩

/-- C8 witness: the valid session `sessW` (severity 4) is accepted and its
severity persisted verbatim; the reachable severity 3 lies in `[1,5]`. -/
theorem saveIncident_no_severity_check_witness :
    jsTrim sessW.transcript ≠ "" ∧ sessW.category ≠ "" ∧
      (saveIncident 7 dtW sessW []).2.map Incident.severity = [4] ∧
      (1 ≤ (3 : Int) ∧ (3 : Int) ≤ 5) := by
  refine ⟨by decide, by decide, ?_, saveIncident_no_severity_check.2 3 severityReachable.initial⟩
  exact (saveIncident_no_severity_check.1 7 dtW sessW [] (by decide) (by decide)).trans (by decide)

/-! ### C9 -/

/-- C9 counterexample: a store already holding the id "1000" (a reachable
state: it is what a save at millisecond 1000 produces) and a save at the same
millisecond 1000 yield two incidents with equal ids — the freshly generated id
does not differ from every stored id. -/
theorem saveIncident_duplicate_id_cex :
    (saveIncident 1000 dtW sess9 [incDup]).2.map Incident.id = ["1000", "1000"] ∧
      ¬ ((saveIncident 1000 dtW sess9 [incDup]).2.map Incident.id).Nodup := by
  decide

/-- C9 (amended): the id assigned by `saveIncident` is the decimal string of
the save's millisecond; ids stay pairwise distinct only under the side
condition that no stored incident already carries that string.  Deletion
preserves distinctness unconditionally, and import installs the backup's
incident list verbatim, with whatever ids (duplicates included) it contains. -/
theorem incident_id_conditional_uniqueness :
    (∀ (nowMs : Nat) (now : DateTime) (state : SessionState) (store : List Incident),
        jsTrim state.transcript ≠ "" → state.category ≠ "" →
        (∀ i ∈ store, i.id ≠ toString nowMs) → (store.map Incident.id).Nodup →
        ((saveIncident nowMs now state store).2.map Incident.id).Nodup) ∧
    (∀ (id : String) (store : List Incident),
        (store.map Incident.id).Nodup → ((deleteIncident id store).map Incident.id).Nodup) ∧
    (∀ (doc : BackupDoc) (st : StorageState) (l : List Incident),
        doc.incidents = some l → (importData (Except.ok doc) st).1.incidents = l) := by
  refine ⟨?_, ?_, ?_⟩
  · intro nowMs now state store h1 h2 hfresh hnodup
    rw [saveIncident_success_eq nowMs now state store h1 h2]
    rw [List.map_append, List.nodup_append]
    refine ⟨hnodup, List.nodup_singleton _, ?_⟩
    intro a ha hb
    simp only [List.map_cons, List.map_nil, List.mem_singleton] at hb
    obtain ⟨i, hi, hid⟩ := List.mem_map.mp ha
    exact hfresh i hi (hid.trans hb)
  · intro id store h
    exact h.sublist (List.Sublist.map _ (List.filter_sublist store))
  · intro doc st l h
    cases hs : doc.settings <;> simp [importData, h, hs]

/-- C9 witness: a save at a fresh millisecond (2000) over the singleton store
with id "1000" keeps ids pairwise distinct; deletion and import instantiated
concretely. -/
theorem incident_id_conditional_uniqueness_witness :
    jsTrim sess9.transcript ≠ "" ∧ sess9.category ≠ "" ∧
      (∀ i ∈ [incDup], i.id ≠ toString 2000) ∧ ([incDup].map Incident.id).Nodup ∧
      ((saveIncident 2000 dtW sess9 [incDup]).2.map Incident.id).Nodup ∧
      ((deleteIncident "1000" [incDup]).map Incident.id).Nodup ∧
      (importData (Except.ok ⟨some [iA1], none⟩) ⟨[], none⟩).1.incidents = [iA1] := by
  refine ⟨by decide, by decide, by decide, by decide, ?_, ?_, ?_⟩
  · exact incident_id_conditional_uniqueness.1 2000 dtW sess9 [incDup]
      (by decide) (by decide) (by decide) (by decide)
  · exact incident_id_conditional_uniqueness.2.1 "1000" [incDup] (by decide)
  · exact incident_id_conditional_uniqueness.2.2 ⟨some [iA1], none⟩ ⟨[], none⟩ [iA1] rfl

/-! ### C7 -/

/-- The controller state after one successful `startRecording` from idle. -/
def afterFirstStart : ControllerState :=
  (startRecording true "loc1" ⟨2024, 3, 15, 9, 0, 0⟩ idleController).1

/-- C7 counterexample: two `start()` calls in succession without an
intervening stop/reset.  The second call is not a no-op: it acquires a second
audio stream (two active devices), changes the state, and ends in the caught
"Recording failed" branch. -/
theorem startRecording_double_start_cex :
    afterFirstStart.isRecording = true ∧ afterFirstStart.activeStreams = 1 ∧
      (startRecording true "loc2" ⟨2024, 3, 15, 9, 5, 0⟩ afterFirstStart).1.activeStreams = 2 ∧
      (startRecording true "loc2" ⟨2024, 3, 15, 9, 5, 0⟩ afterFirstStart).2 = StartOutcome.failed ∧
      (startRecording true "loc2" ⟨2024, 3, 15, 9, 5, 0⟩ afterFirstStart).1 ≠ afterFirstStart := by
  decide

/-- C7 (amended): `startRecording` has no state guard.  Called while the
recognizer is active it acquires an additional audio stream, overwrites the
recording flags, location and timestamp, and then the recognition restart
throws; the exception is caught inside the function (it never propagates), the
call returning the failure outcome with recognition and timers untouched. -/
theorem startRecording_unguarded
    (s : ControllerState) (loc : String) (now : DateTime)
    (h : s.recognitionActive = true) :
    startRecording true loc now s =
      ({ s with activeStreams := s.activeStreams + 1, isRecording := true
                isPaused := false, location := loc, timestamp := some now },
       StartOutcome.failed) := by
  unfold startRecording
  simp [h]

/-- C7 witness: instantiated at the state reached by one successful start. -/
theorem startRecording_unguarded_witness :
    afterFirstStart.recognitionActive = true ∧
      startRecording true "loc2" ⟨2024, 3, 15, 9, 5, 0⟩ afterFirstStart =
        ({ afterFirstStart with
            activeStreams := afterFirstStart.activeStreams + 1, isRecording := true
            isPaused := false, location := "loc2", timestamp := some ⟨2024, 3, 15, 9, 5, 0⟩ },
         StartOutcome.failed) :=
  ⟨by decide, startRecording_unguarded afterFirstStart "loc2" ⟨2024, 3, 15, 9, 5, 0⟩ (by decide)⟩

/-! ### C5 -/

/-- C5 counterexample: on an empty store `generateCourtReport` refuses to
generate — it returns early with the "No incidents found" error toast and
produces no document at all, rather than a document stating zero incidents. -/
theorem generateCourtReport_empty_cex : generateCourtReport [] = none := by
  decide

/-- C5 (amended): on an empty incident sequence the tabular export yields the
header row only and the general timeline document is generated with a
zero-incident summary, but the legal-report variant declines to produce a
document (early return with an error notice). -/
theorem empty_sequence_export_behavior :
    exportToCSV [] = "Date,Category,Severity,Location,People Involved,Transcript" ∧
      exportToPDF [] = { totalIncidents := 0, entries := [] } ∧
      generateCourtReport [] = none := by
  decide

/-! ### C6 -/

/-- A backup document lacking the `incidents` field but carrying settings. -/
def bkpNoIncidents : BackupDoc := { incidents := none, settings := some "imported-settings" }

/-- A storage state with one incident and previously stored settings. -/
def st0 : StorageState := { incidents := [iA1], settings := some "original-settings" }

/-- C6 counterexample: importing a backup without an `incidents` field is not
aborted with a format error — it reports success ("Imported 0 incidents") and
overwrites the previously stored settings. -/
theorem importData_missing_incidents_cex :
    (importData (Except.ok bkpNoIncidents) st0).2 = ImportOutcome.success 0 ∧
      (importData (Except.ok bkpNoIncidents) st0).1.settings = some "imported-settings" ∧
      st0.settings = some "original-settings" ∧
      (importData (Except.ok bkpNoIncidents) st0).1.settings ≠ st0.settings := by
  decide

/-- C6 (amended): import performs no field validation.  When the backup lacks
an `incidents` field the incident store is left unchanged, but the import is
not aborted: it reports success with a count of 0 and still applies a present
`settings` field (overwriting the stored settings).  Only a JSON parse failure
aborts the import, and then nothing at all is overwritten. -/
theorem importData_no_validation
    (doc : BackupDoc) (st : StorageState) (h : doc.incidents = none) :
    (importData (Except.ok doc) st).1.incidents = st.incidents ∧
      (importData (Except.ok doc) st).2 = ImportOutcome.success 0 ∧
      (importData (Except.ok doc) st).1.settings = doc.settings.or st.settings ∧
      (∀ st' : StorageState, importData (Except.error ()) st' = (st', ImportOutcome.invalidFormat)) := by
  refine ⟨?_, ?_, ?_, fun st' => rfl⟩ <;>
    cases hs : doc.settings <;> simp [importData, h, hs, Option.or]

/-- C6 witness: the missing-`incidents` backup over the populated store. -/
theorem importData_no_validation_witness :
    bkpNoIncidents.incidents = none ∧
      (importData (Except.ok bkpNoIncidents) st0).1.incidents = st0.incidents ∧
      (importData (Except.ok bkpNoIncidents) st0).2 = ImportOutcome.success 0 := by
  have h := importData_no_validation bkpNoIncidents st0 rfl
  exact ⟨rfl, h.1, h.2.1⟩

/-! ### C4 -/

/-- An eleven-incident store (ids "0"–"10", one second apart). -/
def store11 : List Incident :=
  (List.range 11).map fun k =>
    { id := toString k, timestamp := ⟨2024, 1, 1, 10, 0, k⟩, category := "Meltdown"
      severity := 3, location := "", transcript := "t", peopleInvolved := [] }

/-- C4: for every store with more than 10 incidents the court report's
detailed section renders exactly the first 10 incidents in store order
(`slice(0, 10)`), while the general timeline document renders an entry for
every incident of its input sequence. -/
theorem courtReport_caps_ten_timeline_full
    (store : List Incident) (h : 10 < store.length) :
    (generateCourtReport store).map CourtReport.entries = some (store.take 10) ∧
      (store.take 10).length = 10 ∧
      (∀ view : List Incident, (exportToPDF view).entries = view ∧
        (exportToPDF view).entries.length = view.length) := by
  refine ⟨?_, ?_, fun view => ⟨rfl, rfl⟩⟩
  · have hne : ¬ store.length = 0 := by omega
    simp [generateCourtReport, hne]
  · simp only [List.length_take]
    omega

/-- C4 witness: the eleven-incident store. -/
theorem courtReport_caps_ten_timeline_full_witness :
    10 < store11.length ∧
      (generateCourtReport store11).map CourtReport.entries = some (store11.take 10) ∧
      (store11.take 10).length = 10 := by
  have h := courtReport_caps_ten_timeline_full store11 (by decide)
  exact ⟨by decide, h.1, h.2.1⟩

/-! ### C3 -/

/-- C3 counterexample: scenario B's first record has transcript `"t1"`, which
contains neither a comma nor a double quote, yet its exported transcript field
is `"\"t1\""` — the exporter always wraps the transcript in double quotes, it
is never left unquoted. -/
theorem csv_transcript_always_quoted_cex :
    csvNeedsQuoting iA1.transcript = false ∧
      (csvRow iA1).getLast? = some "\"t1\"" ∧
      (csvRow iA1).getLast? ≠ some iA1.transcript := by
  decide

/-- C3 (amended): the tabular export is exactly one header row followed by one
row per incident, the rows joined with newlines (so 3 rows for a two-incident
input); each row carries the `yyyy-MM-dd HH:mm:ss` date, the people joined
with `"; "`, and a transcript field that is ALWAYS double-quote-wrapped with
embedded quotes doubled — not only when it contains a comma or quote. -/
theorem exportToCSV_structure (l : List Incident) :
    exportToCSV l =
      String.intercalate "\n"
        ("Date,Category,Severity,Location,People Involved,Transcript" ::
          l.map fun i =>
            formatDateTime i.timestamp ++ "," ++ i.category ++ "," ++
              toString i.severity ++ "," ++ i.location ++ "," ++
              String.intercalate "; " i.peopleInvolved ++ "," ++
              ("\"" ++ escapeQuotes i.transcript ++ "\"")) ∧
      (csvHeaders :: l.map csvRow).length = l.length + 1 := by
  constructor
  · unfold exportToCSV
    congr 1
    rw [List.map_cons, List.map_map]
    congr 1
  · simp

/-! ### C2: helper lemmas -/

/-- The "may come before" relation of the timeline comparator is transitive. -/
theorem sortLe_trans (ord : SortOrder) :
    ∀ a b c : Incident, sortLe ord a b → sortLe ord b c → sortLe ord a c := by
  intro a b c hab hbc
  cases ord <;> simp [sortLe] at * <;> omega

/-- The "may come before" relation of the timeline comparator is total. -/
theorem sortLe_total (ord : SortOrder) :
    ∀ a b : Incident, sortLe ord a b || sortLe ord b a := by
  intro a b
  cases ord <;> simp [sortLe] <;> omega

/-- Incidents with equal timestamps are related both ways by the comparator. -/
theorem sortLe_of_getTime_eq (ord : SortOrder) (a b : Incident)
    (h : a.timestamp.getTime = b.timestamp.getTime) : sortLe ord a b = true := by
  cases ord <;> simp [sortLe, h]

/-- A skippable filter stage `if s = t then l else l.filter q` is the filter
by the disjunction with the skip condition. -/
theorem stage_filter {α : Type} (s t : String) (q : α → Bool) (l : List α) :
    (if s = t then l else l.filter q) = l.filter fun a => (s == t) || q a := by
  by_cases h : s = t
  · subst h
    simp
  · rw [if_neg h]
    exact (List.filter_congr fun a _ => by
      rw [beq_eq_false_iff_ne.mpr h, Bool.false_or]).symm

/-- Stability of `mergeSort` along a key: the sublist of elements selected by
a predicate on which the order is indifferent is returned unchanged. -/
theorem filter_mergeSort_key {α : Type} (le : α → α → Bool)
    (htrans : ∀ a b c, le a b → le b c → le a c)
    (htotal : ∀ a b, le a b || le b a)
    (p : α → Bool) (hp : ∀ a b, p a = true → p b = true → le a b = true)
    (l : List α) :
    (l.mergeSort le).filter p = l.filter p := by
  have hpair : (l.filter p).Pairwise fun a b => le a b = true :=
    List.pairwise_of_forall_mem_list fun a ha b hb =>
      hp a b (List.of_mem_filter ha) (List.of_mem_filter hb)
  have hsub : List.Sublist (l.filter p) (l.mergeSort le) :=
    List.sublist_mergeSort htrans htotal hpair (List.filter_sublist l)
  have hfil : (l.filter p).filter p = l.filter p :=
    List.filter_eq_self.mpr fun a ha => List.of_mem_filter ha
  have hsub2 : List.Sublist (l.filter p) ((l.mergeSort le).filter p) := by
    have h2 := hsub.filter p
    rwa [hfil] at h2
  have hperm : List.Perm ((l.mergeSort le).filter p) (l.filter p) :=
    (List.mergeSort_perm l le).filter p
  exact (hsub2.eq_of_length hperm.length_eq.symm).symm

/-- Lemma: `filterIncidents` is the stable sort of the single conjunctive filter that
mirrors the source's three sequential stages. -/
theorem filterIncidents_eq_conjFilter
    (l : List Incident) (s cf sf : String) (ord : SortOrder) :
    filterIncidents l s cf sf ord =
      (l.filter fun i => ((s == "") || searchHit s i) &&
        (((cf == "all") || (i.category == cf)) &&
          ((sf == "all") || severityHit sf i))).mergeSort (sortLe ord) := by
  simp only [filterIncidents]
  rw [stage_filter, stage_filter, stage_filter, List.filter_filter, List.filter_filter]
  congr 1
  refine List.filter_congr fun a _ => ?_
  cases hs : (s == "") || searchHit s a <;>
    cases hc : (cf == "all") || (a.category == cf) <;>
      cases hv : (sf == "all") || severityHit sf a <;> simp [hs, hc, hv]

/-- Over the severity-filter values the timeline offers, the source's
conjunctive predicate coincides with the specification's view predicate. -/
theorem conjFilter_eq_specMatches
    (s cf sf : String) (hsf : sf = "all" ∨ sf = "1-2" ∨ sf = "3-3" ∨ sf = "4-5")
    (i : Incident) :
    (((s == "") || searchHit s i) &&
        (((cf == "all") || (i.category == cf)) && ((sf == "all") || severityHit sf i)))
      = specMatches s cf (uiBand sf) i := by
  rcases hsf with h | h | h | h <;> subst h <;>
    simp +decide [specMatches, uiBand, severityHit, bandBounds, splitDash, parseNat,
      Bool.and_assoc]

/-! ### C2: main theorem -/

/-- C2: for every store and every choice of search term, category filter,
severity band (one of the timeline's band values) and sort order, the filtered
view is exactly the incidents satisfying the three filters conjunctively —
case-insensitive substring match against transcript OR category with the empty
term matching all, category equality unless `"all"`, severity inside the
inclusive band unless `"all"` — stably sorted by timestamp (descending for
`newest`, ascending for `oldest`): the view is the stable sort of the
conjunctive filter, membership is the conjunction, the result is pairwise
ordered, and equal-timestamp incidents keep their original store order. -/
theorem filterIncidents_conjunctive_stable_sorted
    (l : List Incident) (s cf sf : String) (ord : SortOrder)
    (hsf : sf = "all" ∨ sf = "1-2" ∨ sf = "3-3" ∨ sf = "4-5") :
    filterIncidents l s cf sf ord =
        (l.filter (specMatches s cf (uiBand sf))).mergeSort (sortLe ord) ∧
      (∀ i : Incident, i ∈ filterIncidents l s cf sf ord ↔
        i ∈ l ∧ specMatches s cf (uiBand sf) i = true) ∧
      (filterIncidents l s cf sf ord).Pairwise (fun a b => sortLe ord a b = true) ∧
      (∀ t : Nat, (filterIncidents l s cf sf ord).filter (fun i => i.timestamp.getTime == t)
        = (l.filter (specMatches s cf (uiBand sf))).filter (fun i => i.timestamp.getTime == t)) := by
  have heq : filterIncidents l s cf sf ord =
      (l.filter (specMatches s cf (uiBand sf))).mergeSort (sortLe ord) := by
    rw [filterIncidents_eq_conjFilter]
    congr 1
    exact List.filter_congr fun i _ => conjFilter_eq_specMatches s cf sf hsf i
  refine ⟨heq, ?_, ?_, ?_⟩
  · intro i
    rw [heq, List.mem_mergeSort, List.mem_filter]
  · rw [heq]
    exact List.sorted_mergeSort (sortLe_trans ord) (sortLe_total ord) _
  · intro t
    rw [heq]
    refine filter_mergeSort_key (sortLe ord) (sortLe_trans ord) (sortLe_total ord) _ ?_ _
    intro a b ha hb
    exact sortLe_of_getTime_eq ord a b ((beq_iff_eq.mp ha).trans (beq_iff_eq.mp hb).symm)

/-- C2 witness: scenario A — two Meltdown records with severities 2 and 5,
band `"4-5"`, order `newest`: the view is exactly the severity-5 record. -/
theorem filterIncidents_conjunctive_stable_sorted_witness :
    (("4-5" : String) = "all" ∨ ("4-5" : String) = "1-2" ∨
        ("4-5" : String) = "3-3" ∨ ("4-5" : String) = "4-5") ∧
      filterIncidents [iA1, iA2] "" "all" "4-5" SortOrder.newest = [iA2] := by
  refine ⟨Or.inr (Or.inr (Or.inr rfl)), ?_⟩
  have h := (filterIncidents_conjunctive_stable_sorted [iA1, iA2] "" "all" "4-5"
    SortOrder.newest (Or.inr (Or.inr (Or.inr rfl)))).1
  rw [h]
  have hf : List.filter (specMatches "" "all" (uiBand "4-5")) [iA1, iA2] = [iA2] := by
    decide
  rw [hf]
  simp

end ChildFirst
